import Mathlib

/-!
Verification of the song-catalog HTTP server (`src/main.rs`).

The request handler `handle_client` is embedded shallowly:

* The decoded request buffer (after `String::from_utf8_lossy` over the fixed
  1024-byte read buffer) is modelled as a `List Char`.  Character positions
  coincide with Rust byte indices on ASCII input, which covers every input
  used in concrete evaluations below.
* Machine integers (`u32`, `usize`) are `Nat` with explicit bounds
  (`u32Mod`, `u64Mod`); arithmetic that can overflow uses `% u32Mod`
  (release-profile wrapping semantics).
* Fallible Rust code is `Option`: a result of `none` marks a panic
  (out-of-bounds slice, `.unwrap()` on an `Err`/`None`).
* The SQLite connection is modelled by `Database`: the song table plus the
  AUTOINCREMENT sequence, and three flags describing whether the external
  store's `prepare`, `execute` and `query_map`/`query_row` calls succeed.
  Row matching for the search statement's `LIKE '%v%'` conditions is
  modelled by ASCII-case-insensitive substring containment (SQLite's
  default `LIKE` semantics for patterns without further wildcards).
* `serde_json` is modelled by an executable JSON parser/serializer
  (`parseValue`, `decodeNewSong`, `songJson`).
-/

set_option maxRecDepth 400000

/-- Modulus of `u32` arithmetic. -/
def u32Mod : Nat := 4294967296

/-- Modulus of `usize`/`u64` arithmetic. -/
def u64Mod : Nat := 18446744073709551616

/-- Opening curly brace character (written numerically). -/
def lbrace : Char := Char.ofNat 123

/-- Closing curly brace character (written numerically). -/
def rbrace : Char := Char.ofNat 125

/-- First index at which `pat` occurs in the haystack, scanning from
position `i`; models Rust `str::find` with a string pattern. -/
def findSubFrom (pat : List Char) : List Char → Nat → Option Nat
  | hay, i =>
    if pat.isPrefixOf hay then some i
    else
      match hay with
      | [] => none
      | _ :: t => findSubFrom pat t (i + 1)

/-- Index of the first occurrence of `pat` in `hay` (Rust `str::find`). -/
def findSub (hay pat : List Char) : Option Nat :=
  findSubFrom pat hay 0

/-- Whether `pat` occurs somewhere in `hay` (Rust `str::contains`). -/
def containsSub (hay pat : List Char) : Bool :=
  (findSub hay pat).isSome

/-- Fuel-based worker for `splitOnSub`; the fuel only needs to dominate the
input length, so it never runs out in `splitOnSub`. -/
def splitOnSubFuel (pat : List Char) : Nat → List Char → List (List Char)
  | _, [] => [[]]
  | 0, s => [s]
  | f + 1, c :: t =>
    if !pat.isEmpty && pat.isPrefixOf (c :: t) then
      [] :: splitOnSubFuel pat f (List.drop (pat.length - 1) t)
    else
      match splitOnSubFuel pat f t with
      | [] => [[c]]
      | h :: rest => (c :: h) :: rest

/-- Rust `str::split` with a non-empty string pattern: the chunks between
non-overlapping leftmost occurrences of `pat`. -/
def splitOnSub (pat s : List Char) : List (List Char) :=
  splitOnSubFuel pat s.length s

/-- Remove a single trailing carriage return, as Rust `str::lines` does to
every line that was terminated by a newline. -/
def stripTrailingCR (l : List Char) : List Char :=
  match l.getLast? with
  | some '\r' => l.dropLast
  | _ => l

/-- Rust `str::lines`: split on a line feed, strip one trailing carriage
return from every terminated line, and drop a final empty chunk. -/
def linesOf (s : List Char) : List (List Char) :=
  let parts := splitOnSub ['\n'] s
  (parts.dropLast.map stripTrailingCR) ++
    (match parts.getLast? with
     | some l => if l.isEmpty then [] else [l]
     | none => [])

/-- Rust `str::trim` (whitespace at both ends). -/
def trimWs (s : List Char) : List Char :=
  ((s.dropWhile Char.isWhitespace).reverse.dropWhile Char.isWhitespace).reverse

/-- Rust `str::to_lowercase`, restricted to its ASCII action. -/
def lowerStr (s : List Char) : List Char :=
  s.map Char.toLower

/-- Rust `str::replace("+", " ")`. -/
def plusToSpace (s : List Char) : List Char :=
  s.map fun c => if c = '+' then ' ' else c

/-- First whitespace-delimited token, or `[]` when there is none; models
`split_whitespace().next().unwrap_or("")`. -/
def firstToken (s : List Char) : List Char :=
  (s.dropWhile Char.isWhitespace).takeWhile fun c => !c.isWhitespace

/-- Numeric value of a list of decimal digits. -/
def natOfDigits (l : List Char) : Nat :=
  l.foldl (fun a c => a * 10 + (c.toNat - 48)) 0

/-- Rust `str::parse` for an unsigned integer type with the given modulus:
an optional leading plus sign, then at least one ASCII digit, and the value
must fit the type. -/
def rustParseUnsigned (bound : Nat) (s : List Char) : Option Nat :=
  let digits := match s with | '+' :: t => t | _ => s
  if !digits.isEmpty && digits.all Char.isDigit then
    let v := natOfDigits digits
    if v < bound then some v else none
  else none

/-- JSON values; numbers are kept as raw numeral text since only string
fields are ever extracted. -/
inductive Json where
  | null : Json
  | bool : Bool → Json
  | num : List Char → Json
  | str : List Char → Json
  | arr : List Json → Json
  | obj : List (List Char × Json) → Json

/-- JSON insignificant whitespace. -/
def jsonWsChar (c : Char) : Bool :=
  c == ' ' || c == '\t' || c == '\n' || c == '\r'

/-- Skip insignificant JSON whitespace. -/
def skipWs (cs : List Char) : List Char :=
  cs.dropWhile jsonWsChar

/-- Value of a hexadecimal digit. -/
def hexVal (c : Char) : Option Nat :=
  if '0' ≤ c ∧ c ≤ '9' then some (c.toNat - 48)
  else if 'a' ≤ c ∧ c ≤ 'f' then some (c.toNat - 87)
  else if 'A' ≤ c ∧ c ≤ 'F' then some (c.toNat - 55)
  else none

/-- Parse the remainder of a JSON string (the opening quote already
consumed), returning the decoded characters and the rest of the input.
Escape handling follows serde_json: the eight named escapes plus
`\uXXXX` with surrogate pairs, rejecting lone surrogates and unescaped
control characters. -/
def parseJString : Nat → List Char → Option (List Char × List Char)
  | 0, _ => none
  | fuel + 1, cs =>
    match cs with
    | [] => none
    | '"' :: rest => some ([], rest)
    | '\\' :: esc =>
      match esc with
      | '"' :: t => (parseJString fuel t).map fun p => ('"' :: p.1, p.2)
      | '\\' :: t => (parseJString fuel t).map fun p => ('\\' :: p.1, p.2)
      | '/' :: t => (parseJString fuel t).map fun p => ('/' :: p.1, p.2)
      | 'b' :: t => (parseJString fuel t).map fun p => (Char.ofNat 8 :: p.1, p.2)
      | 'f' :: t => (parseJString fuel t).map fun p => (Char.ofNat 12 :: p.1, p.2)
      | 'n' :: t => (parseJString fuel t).map fun p => ('\n' :: p.1, p.2)
      | 'r' :: t => (parseJString fuel t).map fun p => ('\r' :: p.1, p.2)
      | 't' :: t => (parseJString fuel t).map fun p => ('\t' :: p.1, p.2)
      | 'u' :: h1 :: h2 :: h3 :: h4 :: t =>
        match hexVal h1, hexVal h2, hexVal h3, hexVal h4 with
        | some a, some b, some c, some d =>
          let n := ((a * 16 + b) * 16 + c) * 16 + d
          if 55296 ≤ n ∧ n ≤ 56319 then
            match t with
            | '\\' :: 'u' :: g1 :: g2 :: g3 :: g4 :: t2 =>
              match hexVal g1, hexVal g2, hexVal g3, hexVal g4 with
              | some a2, some b2, some c2, some d2 =>
                let m := ((a2 * 16 + b2) * 16 + c2) * 16 + d2
                if 56320 ≤ m ∧ m ≤ 57343 then
                  let code := 65536 + (n - 55296) * 1024 + (m - 56320)
                  (parseJString fuel t2).map fun p => (Char.ofNat code :: p.1, p.2)
                else none
              | _, _, _, _ => none
            | _ => none
          else if 56320 ≤ n ∧ n ≤ 57343 then none
          else (parseJString fuel t).map fun p => (Char.ofNat n :: p.1, p.2)
        | _, _, _, _ => none
      | _ => none
    | c :: t =>
      if c.toNat < 32 then none
      else (parseJString fuel t).map fun p => (c :: p.1, p.2)

/-- Parse an optional JSON fraction part. -/
def parseFrac (cs : List Char) : Option (List Char × List Char) :=
  match cs with
  | '.' :: t =>
    let ds := t.takeWhile Char.isDigit
    if ds.isEmpty then none else some ('.' :: ds, t.dropWhile Char.isDigit)
  | _ => some ([], cs)

/-- Parse an optional JSON exponent part. -/
def parseExp (cs : List Char) : Option (List Char × List Char) :=
  match cs with
  | e :: t =>
    if e = 'e' ∨ e = 'E' then
      let (sgn, t1) :=
        match t with
        | '+' :: u => (['+'], u)
        | '-' :: u => (['-'], u)
        | _ => ([], t)
      let ds := t1.takeWhile Char.isDigit
      if ds.isEmpty then none
      else some (e :: (sgn ++ ds), t1.dropWhile Char.isDigit)
    else some ([], cs)
  | [] => some ([], [])

/-- Parse a JSON number (raw text): optional minus, an integer part with no
leading zero, optional fraction and exponent. -/
def parseNumber (cs : List Char) : Option (List Char × List Char) :=
  let (neg, cs1) := match cs with | '-' :: t => (['-'], t) | _ => ([], cs)
  match cs1 with
  | '0' :: t =>
    match parseFrac t with
    | some (fr, r1) =>
      match parseExp r1 with
      | some (ex, r2) => some (neg ++ '0' :: (fr ++ ex), r2)
      | none => none
    | none => none
  | c :: t =>
    if c.isDigit then
      let ds := (c :: t).takeWhile Char.isDigit
      let r0 := (c :: t).dropWhile Char.isDigit
      match parseFrac r0 with
      | some (fr, r1) =>
        match parseExp r1 with
        | some (ex, r2) => some (neg ++ ds ++ fr ++ ex, r2)
        | none => none
      | none => none
    else none
  | [] => none

mutual

/-- Parse one JSON value, fuelled; models the grammar accepted by
serde_json's parser. -/
def parseValue : Nat → List Char → Option (Json × List Char)
  | 0, _ => none
  | fuel + 1, cs =>
    match skipWs cs with
    | [] => none
    | c :: t =>
      if c = '"' then
        (parseJString (t.length + 1) t).map fun p => (Json.str p.1, p.2)
      else if c = lbrace then
        match skipWs t with
        | d :: t2 =>
          if d = rbrace then some (Json.obj [], t2)
          else parseMembers fuel (skipWs t)
        | [] => none
      else if c = '[' then
        match skipWs t with
        | d :: t2 =>
          if d = ']' then some (Json.arr [], t2)
          else
            match parseElems fuel (skipWs t) with
            | some (vs, r) => some (Json.arr vs, r)
            | none => none
        | [] => none
      else
        match c :: t with
        | 't' :: 'r' :: 'u' :: 'e' :: r => some (Json.bool true, r)
        | 'f' :: 'a' :: 'l' :: 's' :: 'e' :: r => some (Json.bool false, r)
        | 'n' :: 'u' :: 'l' :: 'l' :: r => some (Json.null, r)
        | cs2 =>
          match parseNumber cs2 with
          | some (raw, r) => some (Json.num raw, r)
          | none => none

/-- Parse the members of a JSON object starting at the first key,
returning the object. -/
def parseMembers : Nat → List Char → Option (Json × List Char)
  | 0, _ => none
  | fuel + 1, cs =>
    match cs with
    | '"' :: t =>
      match parseJString (t.length + 1) t with
      | some (key, r1) =>
        match skipWs r1 with
        | ':' :: r2 =>
          match parseValue fuel r2 with
          | some (v, r3) =>
            match skipWs r3 with
            | ',' :: r4 =>
              match parseMembers fuel (skipWs r4) with
              | some (Json.obj fields, r5) => some (Json.obj ((key, v) :: fields), r5)
              | _ => none
            | d :: r4 =>
              if d = rbrace then some (Json.obj [(key, v)], r4) else none
            | [] => none
          | none => none
        | _ => none
      | none => none
    | _ => none

/-- Parse the elements of a JSON array starting at the first element. -/
def parseElems : Nat → List Char → Option (List Json × List Char)
  | 0, _ => none
  | fuel + 1, cs =>
    match parseValue fuel cs with
    | some (v, r1) =>
      match skipWs r1 with
      | ',' :: r2 =>
        match parseElems fuel r2 with
        | some (vs, r3) => some (v :: vs, r3)
        | none => none
      | d :: r2 => if d = ']' then some ([v], r2) else none
      | [] => none
    | none => none

end

/-- Input record of POST /songs/new (struct `NewSong` in the source). -/
structure NewSong where
  title : String
  artist : String
  genre : String
deriving DecidableEq, Repr

/-- Accumulate the three `NewSong` fields from object members in order.
Mirrors serde's derived deserializer: a duplicate known field or a known
field whose value is not a JSON string is an error; unknown fields are
ignored. -/
def walkFields : List (List Char × Json) → Option (List Char) →
    Option (List Char) → Option (List Char) → Option NewSong
  | [], some t, some a, some g => some ⟨String.mk t, String.mk a, String.mk g⟩
  | [], _, _, _ => none
  | (k, v) :: rest, t, a, g =>
    if k = "title".data then
      match t, v with
      | none, Json.str s => walkFields rest (some s) a g
      | _, _ => none
    else if k = "artist".data then
      match a, v with
      | none, Json.str s => walkFields rest t (some s) g
      | _, _ => none
    else if k = "genre".data then
      match g, v with
      | none, Json.str s => walkFields rest t a (some s)
      | _, _ => none
    else walkFields rest t a g

/-- Models `serde_json::from_str::<NewSong>`: parse a complete JSON value
(trailing whitespace only), require an object, and extract the three
mandatory string fields. -/
def decodeNewSong (body : List Char) : Option NewSong :=
  match parseValue (2 * body.length + 4) body with
  | some (j, rest) =>
    if (skipWs rest).isEmpty then
      match j with
      | Json.obj fields => walkFields fields none none none
      | _ => none
    else none
  | none => none

/-- Hexadecimal digit character for values below 16. -/
def hexDigit (n : Nat) : Char :=
  if n < 10 then Char.ofNat (48 + n) else Char.ofNat (87 + n)

/-- Escape one character the way serde_json's string serializer does. -/
def jsonEscapeChar (c : Char) : List Char :=
  if c = '"' then ['\\', '"']
  else if c = '\\' then ['\\', '\\']
  else if c = Char.ofNat 8 then ['\\', 'b']
  else if c = Char.ofNat 12 then ['\\', 'f']
  else if c = '\n' then ['\\', 'n']
  else if c = '\r' then ['\\', 'r']
  else if c = '\t' then ['\\', 't']
  else if c.toNat < 32 then
    ['\\', 'u', '0', '0', hexDigit (c.toNat / 16), hexDigit (c.toNat % 16)]
  else [c]

/-- Serialize a string as a JSON string literal, serde_json style. -/
def jsonStringLit (s : String) : String :=
  String.mk ('"' :: (s.data.foldr (fun c acc => jsonEscapeChar c ++ acc) ['"']))

/-- A catalog row (struct `Song` in the source).  `id` is the SQLite
rowid; `play_count` is the stored counter.  Both are `Nat` here; the
`u32` reads/writes of the handlers check the `u32Mod` bound explicitly. -/
structure Song where
  id : Nat
  title : String
  artist : String
  genre : String
  play_count : Nat
deriving DecidableEq, Repr

/-- An HTTP response as assembled by `handle_client`: status code, the
optional Content-Type header, and the body text. -/
structure HttpResponse where
  status : Nat
  contentType : Option String
  body : String
deriving DecidableEq, Repr

/-- The shared SQLite connection: the songs table, the AUTOINCREMENT
sequence value for it, and three flags giving the outcome of the external
store's fallible calls (`prepare`, `execute`, `query_map`/`query_row`). -/
structure Database where
  songs : List Song
  seq : Nat
  prepareOk : Bool
  execOk : Bool
  queryOk : Bool
deriving DecidableEq, Repr

/-- A fresh, empty store with all store operations succeeding. -/
def db0 : Database := ⟨[], 0, true, true, true⟩

/-- Route pattern of the visit-count handler. -/
def countPat : List Char := "GET /count ".data

/-- Route pattern of the create-song handler. -/
def postPat : List Char := "POST /songs/new ".data

/-- Route pattern of the search handler. -/
def searchPat : List Char := "GET /songs/search?".data

/-- Route pattern of the play handler. -/
def playPat : List Char := "GET /songs/play/".data

/-- Separator used by the play handler's `request.split("/songs/play/")`. -/
def playSeg : List Char := "/songs/play/".data

/-- The blank-line separator between headers and body. -/
def crlf2 : List Char := "\r\n\r\n".data

/-- Header substring looked up by the content-type check. -/
def ctJson : List Char := "Content-Type: application/json".data

/-- Header-line pattern of the content-length lookup. -/
def clPat : List Char := "Content-Length:".data

/-- Response literals written by the source, one per `write_all` call
(status line, Content-Type header and body transcribed verbatim). -/
def resp415 : HttpResponse :=
  ⟨415, some "text/plain", "Expected Content-Type: application/json."⟩

/-- Response for a missing/invalid Content-Length on POST /songs/new. -/
def resp411 : HttpResponse :=
  ⟨411, some "text/plain", "Missing Content-Length header."⟩

/-- Response for an undecodable create-song body. -/
def resp400json : HttpResponse :=
  ⟨400, some "text/plain", "Invalid JSON format."⟩

/-- Response for a failed insert: bare 500 status line, no header. -/
def resp500insert : HttpResponse := ⟨500, none, ""⟩

/-- Response for a failed search query execution. -/
def resp500search : HttpResponse := ⟨500, some "text/plain", ""⟩

/-- Response for a non-numeric play identifier. -/
def resp400play : HttpResponse := ⟨400, some "text/plain", "Invalid song ID."⟩

/-- Response for an unknown song identity on the play route. -/
def resp404 : HttpResponse :=
  ⟨404, some "application/json", "\x7b\"error\":\"Song not found\"\x7d"⟩

/-- Response of the default handler. -/
def respWelcome : HttpResponse :=
  ⟨200, some "text/plain", "Welcome to the Rust-powered web server!"⟩

/-- Splitting of the request into headers and body (`main.rs:85-87`).
When no blank-line sequence exists, the source computes
`&request[headers_end + 4..]` with `headers_end` equal to the buffer
length, an out-of-bounds slice: that panic is `none` here. -/
def parseRequest (r : List Char) : Option (List Char × List Char) :=
  match findSub r crlf2 with
  | some i => some (r.take i, r.drop (i + 4))
  | none => none

/-- Content-Length extraction (`main.rs:107-111`): the first header line
starting with `Content-Length:`, split on `": "` taking the second chunk,
trimmed, parsed as `usize`. -/
def contentLengthOf (headers : List Char) : Option Nat :=
  ((linesOf headers).find? fun l => clPat.isPrefixOf l).bind fun l =>
    ((splitOnSub ": ".data l).get? 1).bind fun v =>
      rustParseUnsigned u64Mod (trimWs v)

/-- Query-string parsing of the search handler (`main.rs:171-180`): split
on `&` then on `=`, dropping pairs without `=`; keys and values are
lowercased and `+` in values becomes a space. -/
def parseParams (query : List Char) : List (List Char × List Char) :=
  (splitOnSub ['&'] query).filterMap fun pair =>
    match splitOnSub ['='] pair with
    | k :: v :: _ => some (lowerStr k, lowerStr (plusToSpace v))
    | _ => none

/-- Whether a query key is one of the three filterable columns. -/
def recognizedKey (k : List Char) : Bool :=
  k == "title".data || k == "artist".data || k == "genre".data

/-- The SQL text a single parsed key contributes to the WHERE clause. -/
def condOfKey (k : List Char) : List Char :=
  if k == "title".data then " AND title LIKE ?".data
  else if k == "artist".data then " AND artist LIKE ?".data
  else if k == "genre".data then " AND genre LIKE ?".data
  else []

/-- The bound argument a single parsed pair contributes: the value wrapped
in `%` wildcards, for recognized keys only. -/
def argOfPair (kv : List Char × List Char) : Option (List Char) :=
  if recognizedKey kv.1 then some ('%' :: kv.2 ++ ['%']) else none

/-- The source's loop over the parsed parameters (`main.rs:185-201`),
accumulating the conditions text and the bound-argument vector. -/
def buildFilterAux : List (List Char × List Char) → List Char →
    List (List Char) → List Char × List (List Char)
  | [], conds, args => (conds, args)
  | (k, v) :: rest, conds, args =>
    if k == "title".data then
      buildFilterAux rest (conds ++ " AND title LIKE ?".data) (args ++ ['%' :: v ++ ['%']])
    else if k == "artist".data then
      buildFilterAux rest (conds ++ " AND artist LIKE ?".data) (args ++ ['%' :: v ++ ['%']])
    else if k == "genre".data then
      buildFilterAux rest (conds ++ " AND genre LIKE ?".data) (args ++ ['%' :: v ++ ['%']])
    else buildFilterAux rest conds args

/-- Conditions text and bound arguments built from the parsed query. -/
def buildFilter (ps : List (List Char × List Char)) : List Char × List (List Char) :=
  buildFilterAux ps [] []

/-- The fixed SELECT prelude of the search statement. -/
def baseQuery : List Char :=
  "SELECT id, title, artist, genre, play_count FROM songs WHERE 1=1".data

/-- The complete SQL text the search handler prepares (`main.rs:203-206`). -/
def finalQueryOf (ps : List (List Char × List Char)) : List Char :=
  baseQuery ++ (buildFilter ps).1

/-- Engine semantics of one bound `LIKE '%v%'` condition: ASCII
case-insensitive substring containment (SQLite's default `LIKE`). -/
def likeContains (v field : List Char) : Bool :=
  containsSub (lowerStr field) (lowerStr v)

/-- Which rows satisfy every condition of the prepared search statement. -/
def matchesParams (ps : List (List Char × List Char)) (s : Song) : Bool :=
  ps.all fun kv =>
    if kv.1 == "title".data then likeContains kv.2 s.title.data
    else if kv.1 == "artist".data then likeContains kv.2 s.artist.data
    else if kv.1 == "genre".data then likeContains kv.2 s.genre.data
    else true

/-- serde_json serialization of a `Song`, field order as declared. -/
def songJson (s : Song) : String :=
  "\x7b\"id\":" ++ toString s.id ++
  ",\"title\":" ++ jsonStringLit s.title ++
  ",\"artist\":" ++ jsonStringLit s.artist ++
  ",\"genre\":" ++ jsonStringLit s.genre ++
  ",\"play_count\":" ++ toString s.play_count ++ "\x7d"

/-- serde_json serialization of a list of songs. -/
def songsJson (l : List Song) : String :=
  "[" ++ String.intercalate "," (l.map songJson) ++ "]"

/-- The visit-count handler (`main.rs:92-103`): increment the shared
counter under its lock (u32, wrapping) and report the new value. -/
def countRoute (visit : Nat) (db : Database) :
    Option (HttpResponse × Nat × Database) :=
  let c := (visit + 1) % u32Mod
  some (⟨200, some "text/plain", "Visit count: " ++ toString c⟩, c, db)

/-- The create-song handler (`main.rs:104-160`), taking the already split
headers and body.  The unchecked `&body[..content_length]` slice panics
(`none`) when the declared length exceeds the bytes present.  On success
the store assigns rowid `seq + 1`; the reported id is that rowid cast
`as u32`. -/
def createRoute (headers body : List Char) (visit : Nat) (db : Database) :
    Option (HttpResponse × Nat × Database) :=
  if containsSub headers ctJson then
    match contentLengthOf headers with
    | some n =>
      if n ≤ body.length then
        match decodeNewSong (body.take n) with
        | some ns =>
          if db.execOk then
            let newId := db.seq + 1
            let stored : Song := ⟨newId, ns.title, ns.artist, ns.genre, 0⟩
            some (⟨200, some "application/json",
                    songJson ⟨newId % u32Mod, ns.title, ns.artist, ns.genre, 0⟩⟩,
                  visit,
                  { db with songs := db.songs ++ [stored], seq := newId })
          else some (resp500insert, visit, db)
        | none => some (resp400json, visit, db)
      else none
    | none => some (resp411, visit, db)
  else some (resp415, visit, db)

/-- The search handler (`main.rs:161-241`).  The query string is what
follows the matched prefix up to the first space; the prepared statement's
text and bound arguments come from `buildFilter`.  `prepare(..).unwrap()`
panics (`none`) when the store's prepare fails; a failing `query_map`
yields the 500 response; otherwise the rows satisfying all bound `LIKE`
conditions are returned as a JSON array. -/
def searchRoute (r : List Char) (visit : Nat) (db : Database) :
    Option (HttpResponse × Nat × Database) :=
  let query := (r.drop searchPat.length).takeWhile fun c => c ≠ ' '
  let ps := parseParams query
  if db.prepareOk then
    if db.queryOk then
      some (⟨200, some "application/json",
              songsJson (db.songs.filter (matchesParams ps))⟩, visit, db)
    else some (resp500search, visit, db)
  else none

/-- The play handler (`main.rs:242-293`).  The identity string is the
second chunk of splitting the whole request on `/songs/play/`, then its
first whitespace-delimited token.  `prepare` and the UPDATE's `execute`
are unwrapped (panic on store failure); `query_row` returns an error — and
hence the 404 branch — when the store's query fails, no row matches, or
the stored play_count does not fit `u32`. -/
def playRoute (r : List Char) (visit : Nat) (db : Database) :
    Option (HttpResponse × Nat × Database) :=
  match (splitOnSub playSeg r).get? 1 with
  | none => none
  | some seg =>
    match rustParseUnsigned u32Mod (firstToken seg) with
    | none => some (resp400play, visit, db)
    | some id =>
      if db.prepareOk then
        match (if db.queryOk then db.songs.find? fun s => s.id == id else none) with
        | some s =>
          if s.play_count < u32Mod then
            let newPc := (s.play_count + 1) % u32Mod
            if db.execOk then
              some (⟨200, some "application/json",
                      songJson { s with play_count := newPc }⟩, visit,
                    { db with songs := db.songs.map fun t =>
                        if t.id == s.id then { t with play_count := newPc } else t })
            else none
          else some (resp404, visit, db)
        | none => some (resp404, visit, db)
      else none

/-- The whole of `handle_client` (`main.rs:71-300`) after the socket read:
split the decoded buffer, then dispatch on the request prefix in the
source's order.  A `none` result is a panic of the handler thread. -/
def handleClient (r : List Char) (visit : Nat) (db : Database) :
    Option (HttpResponse × Nat × Database) :=
  match parseRequest r with
  | none => none
  | some (headers, body) =>
    if countPat.isPrefixOf r then countRoute visit db
    else if postPat.isPrefixOf r then createRoute headers body visit db
    else if searchPat.isPrefixOf r then searchRoute r visit db
    else if playPat.isPrefixOf r then playRoute r visit db
    else some (respWelcome, visit, db)

/-- The 1024-byte read buffer: a request's bytes followed by the NUL bytes
the zero-initialized buffer keeps when the request is shorter
(`main.rs:76-77`). -/
def padTo1024 (s : String) : List Char :=
  s.data ++ List.replicate (1024 - s.length) (Char.ofNat 0)

/-- Sequential execution of `n` visit-count requests starting from counter
value `c`, collecting the responses in order.  Because the counter is
touched only inside the mutex-guarded critical section of `countRoute`,
every interleaving of `n` concurrent count requests executes these
critical sections in some total order, and all requests are identical, so
this function computes the outcome of every such interleaving. -/
def runCount (db : Database) : Nat → Nat → Nat × List HttpResponse
  | 0, c => (c, [])
  | n + 1, c =>
    match countRoute c db with
    | some (resp, c', _) =>
      let p := runCount db n c'
      (p.1, resp :: p.2)
    | none => (c, [])

/-- Two route patterns that disagree within the length of the shorter one
cannot both be prefixes of the same request. -/
theorem not_both_pre (p q : List Char) (hlen : p.length ≤ q.length)
    (hne : q.take p.length ≠ p) {r : List Char}
    (hp : p.isPrefixOf r) (hq : q.isPrefixOf r) : False := by
  rw [List.isPrefixOf_iff_prefix] at hp hq
  have e1 := List.prefix_iff_eq_take.mp hp
  have e2 := List.prefix_iff_eq_take.mp hq
  have h3 : List.take p.length q = List.take p.length r := by
    conv_lhs => rw [e2]
    rw [List.take_take, Nat.min_eq_left hlen]
  exact hne (h3.trans e1.symm)

/-- A request matching the longer of two disagreeing patterns does not
match the shorter. -/
theorem routeExclOfLonger (p q : List Char) (hlen : p.length ≤ q.length)
    (hne : q.take p.length ≠ p) (r : List Char)
    (hq : q.isPrefixOf r = true) : p.isPrefixOf r = false := by
  cases h : p.isPrefixOf r
  · rfl
  · exact (not_both_pre p q hlen hne h hq).elim

/-- A request matching the shorter of two disagreeing patterns does not
match the longer. -/
theorem routeExclOfShorter (p q : List Char) (hlen : p.length ≤ q.length)
    (hne : q.take p.length ≠ p) (r : List Char)
    (hp : p.isPrefixOf r = true) : q.isPrefixOf r = false := by
  cases h : q.isPrefixOf r
  · rfl
  · exact (not_both_pre p q hlen hne hp h).elim

/-- Unfolding of `handleClient` once the header/body split is known. -/
theorem handleClient_eq (r h b : List Char) (v : Nat) (db : Database)
    (hp : parseRequest r = some (h, b)) :
    handleClient r v db =
      (if countPat.isPrefixOf r then countRoute v db
       else if postPat.isPrefixOf r then createRoute h b v db
       else if searchPat.isPrefixOf r then searchRoute r v db
       else if playPat.isPrefixOf r then playRoute r v db
       else some (respWelcome, v, db)) := by
  unfold handleClient
  rw [hp]

/-- The accumulator loop of the search filter equals its declarative
description: conditions are the concatenated per-key SQL fragments and the
arguments are the wrapped values of the recognized pairs, in order. -/
theorem buildFilterAux_eq (ps : List (List Char × List Char))
    (conds : List Char) (args : List (List Char)) :
    buildFilterAux ps conds args =
      (conds ++ (ps.map fun kv => condOfKey kv.1).flatten,
       args ++ ps.filterMap argOfPair) := by
  induction ps generalizing conds args with
  | nil => simp [buildFilterAux]
  | cons kv rest ih =>
    obtain ⟨k, v⟩ := kv
    by_cases h1 : k = "title".data
    · simp [buildFilterAux, h1, ih, condOfKey, argOfPair, recognizedKey]
    · by_cases h2 : k = "artist".data
      · simp [buildFilterAux, h1, h2, ih, condOfKey, argOfPair, recognizedKey]
      · by_cases h3 : k = "genre".data
        · simp [buildFilterAux, h1, h2, h3, ih, condOfKey, argOfPair, recognizedKey]
        · simp [buildFilterAux, h1, h2, h3, ih, condOfKey, argOfPair, recognizedKey]

/-- Splitting on a single character absent from the input returns the
input as the only chunk. -/
theorem splitOnSubFuel_no_occ (c : Char) (l : List Char) (f : Nat)
    (hf : l.length ≤ f) (h : l.all fun x => x ≠ c) :
    splitOnSubFuel [c] f l = [l] := by
  induction l generalizing f with
  | nil => cases f <;> simp [splitOnSubFuel]
  | cons x t ih =>
    cases f with
    | zero => simp at hf
    | succ f =>
      simp only [List.all_cons, Bool.and_eq_true, decide_eq_true_eq] at h
      have hx : ([c].isPrefixOf (x :: t)) = false := by
        simp [List.isPrefixOf]
        intro he
        exact h.1 he.symm
      simp only [splitOnSubFuel, hx, Bool.and_false, Bool.false_eq_true, if_false]
      rw [ih f (by simpa using Nat.le_of_succ_le_succ hf) (by simpa using h.2)]

/-- Splitting on a single character that occurs exactly once yields the
two surrounding chunks. -/
theorem splitOnSubFuel_one_occ (c : Char) (k v : List Char) (f : Nat)
    (hf : (k ++ c :: v).length ≤ f)
    (hk : k.all fun x => x ≠ c) (hv : v.all fun x => x ≠ c) :
    splitOnSubFuel [c] f (k ++ c :: v) = [k, v] := by
  induction k generalizing f with
  | nil =>
    cases f with
    | zero => simp at hf
    | succ f =>
      have hx : ([c].isPrefixOf (c :: v)) = true := by simp [List.isPrefixOf]
      have hrec := splitOnSubFuel_no_occ c v f (by simp at hf; omega) hv
      simp [splitOnSubFuel, hx, hrec]
  | cons x t ih =>
    cases f with
    | zero => simp at hf
    | succ f =>
      simp only [List.all_cons, Bool.and_eq_true, decide_eq_true_eq] at hk
      have hx : ([c].isPrefixOf (x :: (t ++ c :: v))) = false := by
        simp [List.isPrefixOf]
        intro he
        exact hk.1 he.symm
      have hrec := ih f (by simp at hf ⊢; omega) (by simpa using hk.2)
      simp [splitOnSubFuel, hx, hrec]

/-- Closed form of `runCount`: the counter advances by one per request
(mod `u32Mod`) and the i-th request reports the post-increment value. -/
theorem runCount_eq (db : Database) (n : Nat) :
    ∀ c : Nat, c < u32Mod →
      (runCount db n c).1 = (c + n) % u32Mod ∧
      (runCount db n c).2 = (List.range n).map
        (fun i => ⟨200, some "text/plain",
          "Visit count: " ++ toString ((c + i + 1) % u32Mod)⟩) := by
  induction n with
  | zero =>
    intro c hc
    simp [runCount, Nat.mod_eq_of_lt hc]
  | succ n ih =>
    intro c hc
    have hmod : (c + 1) % u32Mod < u32Mod := Nat.mod_lt _ (by decide)
    obtain ⟨ih1, ih2⟩ := ih ((c + 1) % u32Mod) hmod
    constructor
    · show (runCount db n ((c + 1) % u32Mod)).1 = _
      rw [ih1, Nat.mod_add_mod]
      exact congrArg (· % u32Mod) (by omega)
    · show (⟨200, some "text/plain",
          "Visit count: " ++ toString ((c + 1) % u32Mod)⟩ : HttpResponse) ::
            (runCount db n ((c + 1) % u32Mod)).2 = _
      rw [ih2, List.range_succ_eq_map, List.map_cons, List.map_map]
      congr 1
      apply List.map_congr_left
      intro a _
      have harith : ((c + 1) % u32Mod + a + 1) % u32Mod
          = (c + (a + 1) + 1) % u32Mod := by
        rw [Nat.add_assoc, Nat.mod_add_mod]
        exact congrArg (· % u32Mod) (by omega)
      simp only [Function.comp_apply, Nat.succ_eq_add_one, harith]

/-- C1: the create-song path panics on a short body.  For the 1024-byte
buffer holding a POST /songs/new request that declares Content-Length 2000
while far fewer body bytes are present, the unchecked slice
`&body[..content_length]` at main.rs:115 is out of bounds, so
`handle_client` unwinds (result `none`) instead of producing a protocol
response. -/
theorem createShortBodyPanic :
    handleClient (padTo1024 ("POST /songs/new HTTP/1.1\r\n" ++
      "Content-Type: application/json\r\nContent-Length: 2000\r\n\r\nab")) 0 db0
      = none := by
  decide

/-- C2: the request parser is not total.  For the 1024-byte buffer holding
`GET / HTTP/1.1\r\n` followed by NUL padding — a buffer with no CRLFCRLF
sequence — `headers_end` falls back to the buffer length and the body
slice `&request[headers_end + 4..]` at main.rs:87 is out of bounds, so the
handler panics instead of treating the buffer as headers with an empty
body. -/
theorem parseNoSeparatorPanic :
    findSub (padTo1024 "GET / HTTP/1.1\r\n") crlf2 = none ∧
    handleClient (padTo1024 "GET / HTTP/1.1\r\n") 0 db0 = none := by
  constructor
  · decide
  · decide

/-- C7: a search-route store failure during query execution produces the
500 response, but a failure of `prepare` hits the `.unwrap()` at
main.rs:213 and panics (result `none`) instead of writing a 500. -/
theorem searchPrepareFailurePanic :
    handleClient "GET /songs/search?title=a HTTP/1.1\r\n\r\n".data 0
      ⟨[], 0, false, true, true⟩ = none ∧
    handleClient "GET /songs/search?title=a HTTP/1.1\r\n\r\n".data 0
      ⟨[], 0, true, true, false⟩ =
      some (resp500search, 0, ⟨[], 0, true, true, false⟩) := by
  constructor
  · decide
  · decide

/-- C8 counterexample: a buffer matching none of the four route prefixes
does not reach the default handler when it lacks the CRLFCRLF separator —
the handler panics at the body slice before dispatch, so no welcome
response is produced. -/
theorem dispatchNoSeparatorCounter :
    handleClient (padTo1024 "DELETE /songs HTTP/1.1\r\n") 0 db0 = none := by
  decide

/-- C8 (amended): for every buffer that the header/body split accepts,
dispatch tests exactly the four route prefixes — which are pairwise
mutually exclusive, so the first match is the only match — and every
buffer matching none of them gets the fixed 200 welcome response with the
counter and store untouched. -/
theorem dispatchSpec :
    (∀ r h b v db, parseRequest r = some (h, b) →
      countPat.isPrefixOf r = false → postPat.isPrefixOf r = false →
      searchPat.isPrefixOf r = false → playPat.isPrefixOf r = false →
      handleClient r v db = some (respWelcome, v, db))
    ∧ (∀ r, countPat.isPrefixOf r = true →
        postPat.isPrefixOf r = false ∧ searchPat.isPrefixOf r = false ∧
        playPat.isPrefixOf r = false)
    ∧ (∀ r, postPat.isPrefixOf r = true →
        countPat.isPrefixOf r = false ∧ searchPat.isPrefixOf r = false ∧
        playPat.isPrefixOf r = false)
    ∧ (∀ r, searchPat.isPrefixOf r = true →
        countPat.isPrefixOf r = false ∧ postPat.isPrefixOf r = false ∧
        playPat.isPrefixOf r = false)
    ∧ (∀ r, playPat.isPrefixOf r = true →
        countPat.isPrefixOf r = false ∧ postPat.isPrefixOf r = false ∧
        searchPat.isPrefixOf r = false) := by
  refine ⟨?_, ?_, ?_, ?_, ?_⟩
  · intro r h b v db hp h1 h2 h3 h4
    rw [handleClient_eq r h b v db hp, h1, h2, h3, h4]
    simp
  · intro r hr
    exact ⟨routeExclOfShorter countPat postPat (by decide) (by decide) r hr,
      routeExclOfShorter countPat searchPat (by decide) (by decide) r hr,
      routeExclOfShorter countPat playPat (by decide) (by decide) r hr⟩
  · intro r hr
    exact ⟨routeExclOfLonger countPat postPat (by decide) (by decide) r hr,
      routeExclOfShorter postPat searchPat (by decide) (by decide) r hr,
      routeExclOfShorter postPat playPat (by decide) (by decide) r hr⟩
  · intro r hr
    exact ⟨routeExclOfLonger countPat searchPat (by decide) (by decide) r hr,
      routeExclOfLonger postPat searchPat (by decide) (by decide) r hr,
      routeExclOfLonger playPat searchPat (by decide) (by decide) r hr⟩
  · intro r hr
    exact ⟨routeExclOfLonger countPat playPat (by decide) (by decide) r hr,
      routeExclOfLonger postPat playPat (by decide) (by decide) r hr,
      routeExclOfShorter playPat searchPat (by decide) (by decide) r hr⟩

/-- C8 witness: a DELETE request with a proper header terminator reaches
the default handler and gets the welcome response with no side effects. -/
theorem dispatchSpecWitness :
    handleClient "DELETE /songs HTTP/1.1\r\n\r\n".data 0 db0 =
      some (respWelcome, 0, db0) :=
  dispatchSpec.1 "DELETE /songs HTTP/1.1\r\n\r\n".data
    "DELETE /songs HTTP/1.1".data [] 0 db0
    (by decide) (by decide) (by decide) (by decide) (by decide)

/-- C9: for every number N below the u32 bound of the counter and every
interleaving of N concurrent GET /count requests — all of which execute
their single counter access inside the mutex-guarded critical section, so
every interleaving is a serial order of N identical increments, which is
what `runCount` computes — the final counter value is exactly N and the
i-th request in lock order reports the post-increment value i+1. -/
theorem countTraceSpec (db : Database) (N : Nat) (hN : N < u32Mod) :
    (runCount db N 0).1 = N ∧
    (runCount db N 0).2 = (List.range N).map
      (fun i => ⟨200, some "text/plain", "Visit count: " ++ toString (i + 1)⟩) := by
  obtain ⟨h1, h2⟩ := runCount_eq db N 0 (by decide)
  refine ⟨?_, ?_⟩
  · rw [h1, Nat.zero_add, Nat.mod_eq_of_lt hN]
  · rw [h2]
    apply List.map_congr_left
    intro i hi
    have hilt : (0 + i + 1) % u32Mod = i + 1 := by
      have := List.mem_range.mp hi
      rw [Nat.zero_add, Nat.mod_eq_of_lt (by omega)]
    rw [hilt]

/-- C9 witness: three count requests end with the counter at 3, reporting
1, 2, 3. -/
theorem countTraceSpecWitness :
    (runCount db0 3 0).1 = 3 ∧
    (runCount db0 3 0).2 = (List.range 3).map
      (fun i => ⟨200, some "text/plain", "Visit count: " ++ toString (i + 1)⟩) :=
  countTraceSpec db0 3 (by decide)

/-- C10: on a POST /songs/new request with the JSON content type whose
Content-Length header line is written `Content-Length:42` — no space after
the colon — the `split(": ")` lookup at main.rs:110 finds no second chunk,
so the header counts as missing and the response is 411, even though `42`
parses as a valid non-negative length. -/
theorem contentLengthColonSpaceSpec (r h b : List Char) (v : Nat) (db : Database)
    (hp : parseRequest r = some (h, b))
    (hroute : postPat.isPrefixOf r = true)
    (hjson : containsSub h ctJson = true)
    (hline : (linesOf h).find? (fun l => clPat.isPrefixOf l) =
      some "Content-Length:42".data) :
    handleClient r v db = some (resp411, v, db) ∧
    rustParseUnsigned u64Mod "42".data = some 42 := by
  have hc : countPat.isPrefixOf r = false :=
    routeExclOfLonger countPat postPat (by decide) (by decide) r hroute
  have hcl : contentLengthOf h = none := by
    unfold contentLengthOf
    rw [hline]
    rfl
  constructor
  · rw [handleClient_eq r h b v db hp, hc, hroute]
    simp only [Bool.false_eq_true, if_false, if_true]
    unfold createRoute
    rw [hjson, hcl]
    simp
  · decide

/-- C10 witness: a concrete request with `Content-Length:42` gets 411. -/
theorem contentLengthColonSpaceWitness :
    handleClient ("POST /songs/new HTTP/1.1\r\nContent-Type: application/json\r\n" ++
      "Content-Length:42\r\n\r\nxyz").data 0 db0 = some (resp411, 0, db0) ∧
    rustParseUnsigned u64Mod "42".data = some 42 :=
  contentLengthColonSpaceSpec
    ("POST /songs/new HTTP/1.1\r\nContent-Type: application/json\r\n" ++
      "Content-Length:42\r\n\r\nxyz").data
    ("POST /songs/new HTTP/1.1\r\nContent-Type: application/json\r\n" ++
      "Content-Length:42").data
    "xyz".data 0 db0 (by decide) (by decide) (by decide) (by decide)

/-- C6: the SQL text of the search statement is independent of the
query-parameter values — two parsed parameter lists with the same key
sequence yield the identical query string — and the values appear only in
the bound-argument vector (the wrapped values of the recognized pairs, in
order), which the handler passes to the store separately from the text. -/
theorem searchQueryValueIndependent :
    (∀ ps1 ps2 : List (List Char × List Char),
      ps1.map Prod.fst = ps2.map Prod.fst → finalQueryOf ps1 = finalQueryOf ps2)
    ∧ (∀ ps : List (List Char × List Char),
        (buildFilter ps).2 = ps.filterMap argOfPair) := by
  constructor
  · intro ps1 ps2 hk
    unfold finalQueryOf
    congr 1
    unfold buildFilter
    rw [buildFilterAux_eq, buildFilterAux_eq]
    simp only [List.nil_append]
    have h1 : ps1.map (fun kv => condOfKey kv.1) = (ps1.map Prod.fst).map condOfKey := by
      rw [List.map_map]
      rfl
    have h2 : ps2.map (fun kv => condOfKey kv.1) = (ps2.map Prod.fst).map condOfKey := by
      rw [List.map_map]
      rfl
    rw [h1, h2, hk]
  · intro ps
    unfold buildFilter
    rw [buildFilterAux_eq]
    simp

/-- C6 witness: two queries with the same key but different values build
the same SQL text. -/
theorem searchQueryValueIndependentWitness :
    finalQueryOf [("title".data, "a".data)]
      = finalQueryOf [("title".data, "zzz".data)] :=
  searchQueryValueIndependent.1 _ _ (by decide)

/-- C5 counterexample: the handler lowercases values, not only keys — the
query `title=A` produces the bound argument `%a%`, not the `%A%` the claim
(which allows only the plus-to-space translation on values) demands. -/
theorem searchValueCaseCounter :
    (buildFilter (parseParams "title=A".data)).2 = ["%a%".data] ∧
    ("%a%".data : List Char) ≠ "%A%".data := by
  constructor
  · decide
  · decide

/-- C5 (amended): the search filter is built by splitting the query string
on `&` then `=` (pairs without `=` are dropped), lowercasing keys AND
values and turning `+` in values into spaces; each occurrence of a
recognized key appends one ` AND col LIKE ?` condition and one
`%value%` bound argument, in order and cumulatively; unrecognized keys
contribute nothing; and when no recognized key is present the prepared
query returns every row of the store. -/
theorem searchFilterSpec :
    (∀ ps : List (List Char × List Char),
      buildFilter ps =
        ((ps.map fun kv => condOfKey kv.1).flatten, ps.filterMap argOfPair))
    ∧ (∀ k v : List Char,
        (k.all fun x => x ≠ '&' ∧ x ≠ '=') = true →
        (v.all fun x => x ≠ '&' ∧ x ≠ '=') = true →
        parseParams (k ++ '=' :: v) = [(lowerStr k, lowerStr (plusToSpace v))])
    ∧ (∀ (ps : List (List Char × List Char)) (db : Database),
        (ps.all fun kv => !recognizedKey kv.1) = true →
        db.songs.filter (matchesParams ps) = db.songs) := by
  refine ⟨?_, ?_, ?_⟩
  · intro ps
    unfold buildFilter
    rw [buildFilterAux_eq]
    simp
  · intro k v hk hv
    have hkAmp : (k.all fun x => x ≠ '&') = true := by
      apply List.all_eq_true.mpr
      intro x hx
      have := List.all_eq_true.mp hk x hx
      simp at this ⊢
      exact this.1
    have hkEq : (k.all fun x => x ≠ '=') = true := by
      apply List.all_eq_true.mpr
      intro x hx
      have := List.all_eq_true.mp hk x hx
      simp at this ⊢
      exact this.2
    have hvAmp : (v.all fun x => x ≠ '&') = true := by
      apply List.all_eq_true.mpr
      intro x hx
      have := List.all_eq_true.mp hv x hx
      simp at this ⊢
      exact this.1
    have hvEq : (v.all fun x => x ≠ '=') = true := by
      apply List.all_eq_true.mpr
      intro x hx
      have := List.all_eq_true.mp hv x hx
      simp at this ⊢
      exact this.2
    have hAmpAll : ((k ++ '=' :: v).all fun x => x ≠ '&') = true := by
      apply List.all_eq_true.mpr
      intro x hx
      rcases List.mem_append.mp hx with h | h
      · exact List.all_eq_true.mp hkAmp x h
      · rcases List.mem_cons.mp h with h | h
        · simp [h]
        · exact List.all_eq_true.mp hvAmp x h
    have hsplitAmp : splitOnSub ['&'] (k ++ '=' :: v) = [k ++ '=' :: v] :=
      splitOnSubFuel_no_occ '&' (k ++ '=' :: v) (k ++ '=' :: v).length
        (Nat.le_refl _) hAmpAll
    have hsplitEq : splitOnSub ['='] (k ++ '=' :: v) = [k, v] :=
      splitOnSubFuel_one_occ '=' k v (k ++ '=' :: v).length (Nat.le_refl _)
        hkEq hvEq
    unfold parseParams
    rw [hsplitAmp]
    simp only [List.filterMap_cons, List.filterMap_nil]
    rw [hsplitEq]
  · intro ps db hall
    apply List.filter_eq_self.mpr
    intro s _
    unfold matchesParams
    apply List.all_eq_true.mpr
    intro kv hkv
    have h := List.all_eq_true.mp hall kv hkv
    simp only [Bool.not_eq_true', recognizedKey, Bool.or_eq_false_iff] at h
    simp [h.1.1, h.1.2, h.2]

/-- C5 witness: instances of the three amended-claim conjuncts at concrete
inputs — a recognized pair builds its condition and wrapped argument, a
mixed-case `+`-bearing pair parses to lowercased key and value, and an
unrecognized-only filter keeps every row. -/
theorem searchFilterSpecWitness :
    buildFilter [("title".data, "ab".data)]
      = (" AND title LIKE ?".data, ["%ab%".data]) ∧
    parseParams ("TiTle".data ++ '=' :: "A+b".data)
      = [("title".data, "a b".data)] ∧
    (⟨[⟨1, "t", "a", "g", 0⟩], 1, true, true, true⟩ : Database).songs.filter
      (matchesParams [("x".data, "y".data)]) = [⟨1, "t", "a", "g", 0⟩] := by
  refine ⟨(searchFilterSpec.1 _).trans (by decide), ?_, ?_⟩
  · exact (searchFilterSpec.2.1 "TiTle".data "A+b".data
      (by decide) (by decide)).trans (by decide)
  · exact (searchFilterSpec.2.2 [("x".data, "y".data)]
      ⟨[⟨1, "t", "a", "g", 0⟩], 1, true, true, true⟩ (by decide)).trans (by decide)

/-- C4 counterexample: for the routed request `GET /songs/play/ 5 ...` the
substring between the path segment and the next whitespace is empty and
parses as no integer, so the claim demands 400; but `split_whitespace`
skips the leading space and the code parses `5`, answering 404 (song 5
absent from the empty store) instead. -/
theorem playWhitespaceCounter :
    handleClient "GET /songs/play/ 5 HTTP/1.1\r\n\r\n".data 0 db0
      = some (resp404, 0, db0) ∧
    rustParseUnsigned u32Mod [] = none ∧ resp404.status ≠ 400 := by
  refine ⟨by decide, by decide, by decide⟩

/-- C4 (amended): on a routed GET /songs/play/ request, the identity
string is the first whitespace-delimited token (leading whitespace
skipped) of the text between the first and second occurrence of
`/songs/play/`; when it does not parse as a u32 the response is 400; when
it parses but no row has that id the response is 404 with the exact JSON
error body; when the row exists (and the store calls succeed and
play_count + 1 fits u32) its play_count is incremented by exactly 1,
persisted, and the updated song is returned as JSON with status 200. -/
theorem playRouteSpec (r h b seg : List Char) (v : Nat) (db : Database)
    (hp : parseRequest r = some (h, b))
    (hroute : playPat.isPrefixOf r = true)
    (hseg : (splitOnSub playSeg r).get? 1 = some seg)
    (hprep : db.prepareOk = true) (hq : db.queryOk = true)
    (hexec : db.execOk = true) :
    (rustParseUnsigned u32Mod (firstToken seg) = none →
      handleClient r v db = some (resp400play, v, db))
    ∧ (∀ id, rustParseUnsigned u32Mod (firstToken seg) = some id →
        (db.songs.find? fun s => s.id == id) = none →
        handleClient r v db = some (resp404, v, db))
    ∧ (∀ id s, rustParseUnsigned u32Mod (firstToken seg) = some id →
        (db.songs.find? fun t => t.id == id) = some s →
        s.play_count + 1 < u32Mod →
        handleClient r v db = some
          (⟨200, some "application/json",
            songJson { s with play_count := s.play_count + 1 }⟩, v,
           { db with songs := db.songs.map fun t =>
               if t.id == s.id then { t with play_count := s.play_count + 1 }
               else t })) := by
  have hc : countPat.isPrefixOf r = false :=
    routeExclOfLonger countPat playPat (by decide) (by decide) r hroute
  have hpo : postPat.isPrefixOf r = false :=
    routeExclOfLonger postPat playPat (by decide) (by decide) r hroute
  have hs : searchPat.isPrefixOf r = false :=
    routeExclOfShorter playPat searchPat (by decide) (by decide) r hroute
  have hmain : handleClient r v db = playRoute r v db := by
    rw [handleClient_eq r h b v db hp, hc, hpo, hs, hroute]
    simp
  rw [List.get?_eq_getElem?] at hseg
  refine ⟨?_, ?_, ?_⟩
  · intro hid
    rw [hmain]
    unfold playRoute
    simp [hseg, hid]
  · intro id hid hfind
    rw [hmain]
    unfold playRoute
    simp [hseg, hid, hprep, hq, hfind]
  · intro id s hid hfind hlt
    have hlt' : s.play_count < u32Mod := by omega
    rw [hmain]
    unfold playRoute
    simp [hseg, hid, hprep, hq, hfind, hlt', hexec, Nat.mod_eq_of_lt hlt]

/-- C4 witness: playing existing song 1 increments its play_count from 3
to 4, persists the update and reports the updated song. -/
theorem playRouteSpecWitness :
    handleClient "GET /songs/play/1 HTTP/1.1\r\n\r\n".data 9
      ⟨[⟨1, "t", "a", "g", 3⟩], 1, true, true, true⟩ =
    some (⟨200, some "application/json", songJson ⟨1, "t", "a", "g", 4⟩⟩, 9,
      ⟨[⟨1, "t", "a", "g", 4⟩], 1, true, true, true⟩) := by
  have h := (playRouteSpec "GET /songs/play/1 HTTP/1.1\r\n\r\n".data
    "GET /songs/play/1 HTTP/1.1".data [] "1 HTTP/1.1\r\n\r\n".data 9
    ⟨[⟨1, "t", "a", "g", 3⟩], 1, true, true, true⟩
    (by decide) (by decide) (by decide) rfl rfl rfl).2.2 1 ⟨1, "t", "a", "g", 3⟩
    (by decide) (by decide) (by decide)
  exact h.trans (by decide)

/-- C3 counterexample: two routed POST /songs/new requests violating the
claimed outcome list — one whose declared Content-Length 50 exceeds the 3
body bytes present, making the handler panic (no response at all) instead
of answering 400, and one valid request on a store whose insert fails,
answered 500, an outcome the claim does not allow. -/
theorem createOrderCounter :
    handleClient ("POST /songs/new HTTP/1.1\r\nContent-Type: application/json\r\n" ++
      "Content-Length: 50\r\n\r\nabc").data 0 db0 = none ∧
    handleClient ("POST /songs/new HTTP/1.1\r\nContent-Type: application/json\r\n" ++
      "Content-Length: 38\r\n\r\n\x7b\"title\":\"T\",\"artist\":\"A\",\"genre\":\"G\"\x7d").data 0
      ⟨[], 0, true, false, true⟩
      = some (resp500insert, 0, ⟨[], 0, true, false, true⟩) := by
  refine ⟨by decide, by decide⟩

/-- C3 (amended): on a routed POST /songs/new request the preconditions
are checked in order — no JSON content type gives 415; otherwise a
missing/invalid Content-Length gives 411; otherwise, provided the declared
length does not exceed the body bytes present (else the handler panics,
see C1): a body slice that does not decode as a NewSong gives 400, and a
decodable one inserts a row with play_count 0 and returns 200 with the
fully populated song (store-assigned id, given fields, play_count 0) as
JSON when the store insert succeeds (and the new rowid fits u32), or 500
when the insert fails. -/
theorem createRouteSpec (r h b : List Char) (v : Nat) (db : Database)
    (hp : parseRequest r = some (h, b))
    (hroute : postPat.isPrefixOf r = true) :
    (containsSub h ctJson = false → handleClient r v db = some (resp415, v, db))
    ∧ (containsSub h ctJson = true → contentLengthOf h = none →
        handleClient r v db = some (resp411, v, db))
    ∧ (∀ n, containsSub h ctJson = true → contentLengthOf h = some n →
        n ≤ b.length → decodeNewSong (b.take n) = none →
        handleClient r v db = some (resp400json, v, db))
    ∧ (∀ n ns, containsSub h ctJson = true → contentLengthOf h = some n →
        n ≤ b.length → decodeNewSong (b.take n) = some ns →
        db.execOk = true → db.seq + 1 < u32Mod →
        handleClient r v db = some
          (⟨200, some "application/json",
            songJson ⟨db.seq + 1, ns.title, ns.artist, ns.genre, 0⟩⟩, v,
           { db with
             songs := db.songs ++ [⟨db.seq + 1, ns.title, ns.artist, ns.genre, 0⟩]
             seq := db.seq + 1 }))
    ∧ (∀ n ns, containsSub h ctJson = true → contentLengthOf h = some n →
        n ≤ b.length → decodeNewSong (b.take n) = some ns →
        db.execOk = false →
        handleClient r v db = some (resp500insert, v, db)) := by
  have hc : countPat.isPrefixOf r = false :=
    routeExclOfLonger countPat postPat (by decide) (by decide) r hroute
  have hmain : handleClient r v db = createRoute h b v db := by
    rw [handleClient_eq r h b v db hp, hc, hroute]
    simp
  refine ⟨?_, ?_, ?_, ?_, ?_⟩
  · intro hjson
    rw [hmain]
    unfold createRoute
    simp [hjson]
  · intro hjson hcl
    rw [hmain]
    unfold createRoute
    simp [hjson, hcl]
  · intro n hjson hcl hlen hdec
    rw [hmain]
    unfold createRoute
    simp [hjson, hcl, hlen, hdec]
  · intro n ns hjson hcl hlen hdec hexec hseq
    rw [hmain]
    unfold createRoute
    simp [hjson, hcl, hlen, hdec, hexec, Nat.mod_eq_of_lt hseq]
  · intro n ns hjson hcl hlen hdec hexec
    rw [hmain]
    unfold createRoute
    simp [hjson, hcl, hlen, hdec, hexec]

/-- C3 witness: a fully valid create request on a fresh store inserts the
song with id 1 and play_count 0 and returns it as JSON with status 200. -/
theorem createRouteSpecWitness :
    handleClient ("POST /songs/new HTTP/1.1\r\nContent-Type: application/json\r\n" ++
      "Content-Length: 38\r\n\r\n\x7b\"title\":\"T\",\"artist\":\"A\",\"genre\":\"G\"\x7d").data 5 db0 =
    some (⟨200, some "application/json", songJson ⟨1, "T", "A", "G", 0⟩⟩, 5,
      ⟨[⟨1, "T", "A", "G", 0⟩], 1, true, true, true⟩) := by
  have h := (createRouteSpec
    ("POST /songs/new HTTP/1.1\r\nContent-Type: application/json\r\n" ++
      "Content-Length: 38\r\n\r\n\x7b\"title\":\"T\",\"artist\":\"A\",\"genre\":\"G\"\x7d").data
    ("POST /songs/new HTTP/1.1\r\nContent-Type: application/json\r\n" ++
      "Content-Length: 38").data
    "\x7b\"title\":\"T\",\"artist\":\"A\",\"genre\":\"G\"\x7d".data 5 db0
    (by decide) (by decide)).2.2.2.1 38 ⟨"T", "A", "G"⟩
    (by decide) (by decide) (by decide) (by decide) rfl (by decide)
  exact h.trans (by decide)

